import Mathlib

/-!
Shallow embedding of the `ginx` middleware helpers (packages `errors`,
`bind` and `zlog`) and proofs about the claims of the specification.

The host framework (gin) is modelled by explicit context records:
request-scoped key/value storage, the buffered request body, the abort
flag, accumulated `ctx.Error` values und the written response.  External
collaborators (the JSON decoder / validator behind `ctx.ShouldBind`) are
passed in as oracle parameters describing their outcome on the visible
body content.
-/

/-- Go error values as used by this repository.  `noDetail` is the
`ErrNoDetail` sentinel of package `errors` (compared by identity via
`errors.Is`); `validationErrors` models a `validator.ValidationErrors`
value as the list of (field, rule-tag) pairs (matched by `errors.As`);
`other` is any other error carrying its message. -/
inductive GoError where
  | noDetail : GoError
  | validationErrors : List (String × String) → GoError
  | other : String → GoError
deriving Repr, DecidableEq

/-- Text of an error, as returned by `err.Error()` / `wtf.IsThisError`. -/
def errText : GoError → String
  | GoError.noDetail => "error: no detail"
  | GoError.validationErrors _ => "validation error"
  | GoError.other s => s

/-- Minimal JSON values, enough for the response bodies this repository
builds (`gin.H` object literals rendered by `AbortWithStatusJSON`). -/
inductive Json where
  | str : String → Json
  | num : Int → Json
  | arr : List Json → Json
  | obj : List (String × Json) → Json
deriving Repr

/-- Whether a JSON object value carries a field of the given name. -/
def Json.hasField : Json → String → Bool
  | Json.obj fields, k => fields.any (fun p => p.1 == k)
  | _, _ => false

/-- An HTTP response as produced by `ctx.AbortWithStatusJSON` (a status
and a JSON body) or `ctx.AbortWithStatus` (a status and no body). -/
structure Response where
  status : Nat
  body : Option Json
deriving Repr

/-- The part of a gin context that package `errors` touches. -/
structure ErrCtx where
  aborted : Bool
  response : Option Response
deriving Repr

/-- Embedding of `errors.AbortWithError` (src/errors/errors.go).  The
package-global `detail` flag (set once at startup via
`SetErrorDetailOutput`) is passed as the first parameter.  Returns the
Go function's boolean result together with the updated context. -/
def AbortWithError (detail : Bool) (ctx : ErrCtx) (err : Option GoError)
    (status : Nat) (code : String) : Bool × ErrCtx :=
  match err with
  | some e =>
    let base : List (String × Json) := [("code", Json.str code)]
    let body : List (String × Json) :=
      if detail && !(e == GoError.noDetail)
      then base ++ [("error", Json.str (errText e))]
      else base
    (true, { ctx with aborted := true,
                      response := some ⟨status, some (Json.obj body)⟩ })
  | none => (false, ctx)

/-- Embedding of `errors.AbortWith`: shorthand using the sentinel. -/
def AbortWith (detail : Bool) (ctx : ErrCtx) (status : Nat) (code : String) :
    Bool × ErrCtx :=
  AbortWithError detail ctx (some GoError.noDetail) status code

/-- C4: the error helper returns true iff the error is non-nil; when it
returns true the chain is aborted with a JSON body containing the
`"code"` field, and the body contains an `"error"` field exactly when
the global detail flag is enabled and the error is not the no-detail
sentinel. -/
theorem errors_AbortWithError_contract (detail : Bool) (c : ErrCtx)
    (err : Option GoError) (status : Nat) (code : String) :
    ((AbortWithError detail c err status code).fst = true ↔ err ≠ none)
    ∧ ((AbortWithError detail c err status code).fst = true →
        (AbortWithError detail c err status code).snd.aborted = true
        ∧ ∃ b : Json,
            (AbortWithError detail c err status code).snd.response
              = some ⟨status, some b⟩
            ∧ b.hasField "code" = true
            ∧ (b.hasField "error" = true
                ↔ (detail = true ∧ err ≠ some GoError.noDetail))) := by
  cases err with
  | none => simp [AbortWithError]
  | some e =>
    refine ⟨by simp [AbortWithError], fun _ => ⟨by simp [AbortWithError], ?_⟩⟩
    by_cases hd : detail && !(e == GoError.noDetail)
    · refine ⟨Json.obj [("code", Json.str code),
        ("error", Json.str (errText e))], ?_, by simp [Json.hasField], ?_⟩
      · simp [AbortWithError, hd]
      · simp only [Bool.and_eq_true, Bool.not_eq_true', beq_eq_false_iff_ne] at hd
        simp [Json.hasField, hd.1, hd.2]
    · refine ⟨Json.obj [("code", Json.str code)], ?_, by simp [Json.hasField], ?_⟩
      · simp [AbortWithError, hd]
      · simp only [Bool.and_eq_true, Bool.not_eq_true', beq_eq_false_iff_ne,
          not_and] at hd
        constructor
        · intro hf
          simp [Json.hasField] at hf
        · intro ⟨h1, h2⟩
          simp [h1] at hd
          exact absurd hd (by simpa using h2)

/-- Witness for C4 at a concrete input: detail on, a real error. -/
theorem errors_AbortWithError_contract_w :
    (AbortWithError true ⟨false, none⟩ (some (GoError.other "boom")) 500 "x").fst
      = true := by
  have h := errors_AbortWithError_contract true ⟨false, none⟩
    (some (GoError.other "boom")) 500 "x"
  exact h.1.mpr (by simp)

/-!
Package `bind` (src/bind/bind.go).
-/

/-- The `bindOpts` configuration record of src/bind/bind.go. -/
structure bindOpts where
  key : String
  abort : Bool
  response : Bool
  detail : Bool
  code : Nat
deriving Repr, DecidableEq

/-- Package defaults (the initial values of the package-level vars
`defaultKey`, `defaultAbort`, `defaultResponse`, `defaultDetail`,
`defaultCode`; process-wide, set once at startup, read-only during
request handling). -/
def defaultBindOpts : bindOpts :=
  { key := "body", abort := false, response := false, detail := false,
    code := 400 }

/-- Deep embedding of the option-mutator functions (`BindOpts` values)
that this package exports: `WithKey`, `WithAbort`, `WithResponse`,
`WithResponseCode`, `WithResponseDetail`. -/
inductive BindOpt where
  | withKey : String → BindOpt
  | withAbort : BindOpt
  | withResponse : BindOpt
  | withResponseCode : Nat → BindOpt
  | withResponseDetail : BindOpt
deriving Repr, DecidableEq

/-- Effect of one option-mutator on the record, field for field as in
the bodies of `WithKey`/`WithAbort`/`WithResponse`/`WithResponseCode`/
`WithResponseDetail` in src/bind/bind.go. -/
def applyOpt (bo : bindOpts) : BindOpt → bindOpts
  | BindOpt.withKey k => { bo with key := k }
  | BindOpt.withAbort => { bo with abort := true }
  | BindOpt.withResponse => { bo with response := true }
  | BindOpt.withResponseCode c => { bo with response := true, code := c }
  | BindOpt.withResponseDetail => { bo with response := true, detail := true }

/-- Embedding of `getBindOpts`: fold the mutators in order over the
default record. -/
def getBindOpts (opts : List BindOpt) : bindOpts :=
  opts.foldl applyOpt defaultBindOpts

/-- A buffered request body stream (`ctx.Request.Body`): the underlying
bytes (as characters), the read position, and whether reading from it
fails (models an `io.ReadAll` error). -/
structure BodyReader where
  data : List Char
  pos : Nat
  readErr : Bool
deriving Repr, DecidableEq

/-- What a downstream reader would still obtain from the stream. -/
def BodyReader.remaining (r : BodyReader) : List Char :=
  r.data.drop r.pos

/-- Outcome of `ctx.ShouldBind(target)`: either the populated target or
the error it returns. -/
inductive BindOutcome (α : Type) where
  | ok : α → BindOutcome α
  | fail : GoError → BindOutcome α
deriving Repr, DecidableEq

/-- Behaviour of `ctx.ShouldBind` for a given visible body content:
its outcome, and whether the selected binding engine reads (and thereby
consumes) the request body stream (true for JSON/XML body binding,
false for pure query binding). -/
structure ShouldBindSpec (α : Type) where
  outcome : BindOutcome α
  reads : Bool
deriving Repr, DecidableEq

/-- The part of a gin context that `bindHandler` touches: the request
body stream, the key/value storage written by `ctx.Set`, the error list
written by `ctx.Error`, the abort flag and the written response. -/
structure BindCtx (α : Type) where
  reqBody : Option BodyReader
  store : List (String × α)
  errors : List GoError
  aborted : Bool
  response : Option Response
deriving Repr

/-- Embedding of gin's `ctx.Set`: insert or replace under the key. -/
def setKV {α : Type} : List (String × α) → String → α → List (String × α)
  | [], k, v => [(k, v)]
  | (k0, v0) :: t, k, v =>
    if k0 == k then (k, v) :: t else (k0, v0) :: setKV t k v

/-- Embedding of gin's `ctx.Get` lookup. -/
def getKV {α : Type} : List (String × α) → String → Option α
  | [], _ => none
  | (k0, v0) :: t, k => if k0 == k then some v0 else getKV t k

/-- Second half of `bindHandler` (src/bind/bind.go lines 90-127): the
`ctx.ShouldBind` call and the per-policy error handling.  `body` is the
buffered byte slice (`""` stands for the nil slice of the no-body
path). -/
def bindHandlerCore (α : Type) (sb : Option (List Char) → ShouldBindSpec α)
    (opts : bindOpts) (c0 : BindCtx α) (body : List Char) : BindCtx α :=
  let spec := sb (c0.reqBody.map BodyReader.remaining)
  let c :=
    if spec.reads
    then { c0 with reqBody :=
            c0.reqBody.map (fun r => { r with pos := r.data.length }) }
    else c0
  match spec.outcome with
  | BindOutcome.fail err =>
    if opts.abort then
      -- restore body, ctx.Abort(), ctx.Error(err)
      { c with reqBody := some ⟨body, 0, false⟩,
               aborted := true,
               errors := c.errors ++ [err] }
    else if opts.response then
      match err, opts.detail with
      | GoError.validationErrors ves, true =>
        -- AbortWithStatusJSON(opts.code, validation detail object)
        { c with aborted := true,
                 response := some ⟨opts.code, some (Json.obj
                   [("code", Json.str "validation_error"),
                    ("errors", Json.arr (ves.map (fun fe =>
                      Json.obj [("field", Json.str fe.1),
                                ("rule", Json.str fe.2)])))])⟩ }
      | _, _ =>
        -- error other than a validation error (or detail off):
        -- AbortWithStatus(opts.code), no body is written
        { c with aborted := true, response := some ⟨opts.code, none⟩ }
    else
      -- neither abort nor response requested, silently ignore
      c
  | BindOutcome.ok target =>
    -- restore body and continue
    let c1 :=
      if c.reqBody.isSome then { c with reqBody := some ⟨body, 0, false⟩ }
      else c
    { c1 with store := setKV c1.store opts.key target }

/-- Embedding of `bindHandler` (src/bind/bind.go lines 73-127).  The
body buffering prologue: read the body (if any) into a buffer and
replace the consumed stream with a fresh reader over the buffer, then
run the bind/error-policy logic. -/
def bindHandler (α : Type) (sb : Option (List Char) → ShouldBindSpec α)
    (opts : bindOpts) (c0 : BindCtx α) : BindCtx α :=
  match c0.reqBody with
  | some r =>
    if r.readErr then c0
    else
      let body := r.remaining
      bindHandlerCore α sb opts
        { c0 with reqBody := some ⟨body, 0, false⟩ } body
  | none => bindHandlerCore α sb opts c0 []

/-- Go `reflect.Kind` values relevant to the construction-time check of
`To`. -/
inductive Kind where
  | struct : Kind
  | ptr : Kind
  | int : Kind
  | string : Kind
  | slice : Kind
deriving Repr, DecidableEq

/-- Embedding of the constructor `To` (src/bind/bind.go lines 56-71):
computes the options, then panics (modelled as `Except.error`) unless
the prototype's reflected kind is `Struct`; otherwise returns the
per-request handler closure. -/
def To (α : Type) (kind : Kind) (sb : Option (List Char) → ShouldBindSpec α)
    (opts : List BindOpt) : Except String (BindCtx α → BindCtx α) :=
  let bo := getBindOpts opts
  if kind ≠ Kind.struct then
    Except.error "BindTo() must be given a struct"
  else
    Except.ok (fun ctx => bindHandler α sb bo ctx)

/-- The failure policy `bindHandler` applies on a bind error, in the
branch order of src/bind/bind.go lines 92-118: `abort` is tested first,
then `response`, else silent. -/
inductive FailPolicy where
  | silent : FailPolicy
  | abort : FailPolicy
  | respond : FailPolicy
deriving Repr, DecidableEq

/-- Branch selection of `bindHandler` on failure as a function of the
options record. -/
def failurePolicy (bo : bindOpts) : FailPolicy :=
  if bo.abort then FailPolicy.abort
  else if bo.response then FailPolicy.respond
  else FailPolicy.silent

/-- Storing then looking up under the same key yields the stored value. -/
theorem getKV_setKV {α : Type} (l : List (String × α)) (k : String) (v : α) :
    getKV (setKV l k v) k = some v := by
  induction l with
  | nil => simp [setKV, getKV]
  | cons p t ih =>
    by_cases h : p.1 == k
    · simp [setKV, getKV, h]
    · simp only [setKV, getKV]
      rw [if_neg (by simpa using h), getKV, if_neg (by simpa using h)]
      exact ih

/-- Recognizer for the `WithAbort` mutator. -/
def isWithAbort : BindOpt → Bool
  | BindOpt.withAbort => true
  | _ => false

/-- A mutator is recognized exactly when it is `WithAbort`. -/
theorem isWithAbort_eq (o : BindOpt) :
    isWithAbort o = true ↔ o = BindOpt.withAbort := by
  cases o <;> simp [isWithAbort]

/-- The abort flag after folding mutators: true exactly when the start
record has it or a `withAbort` occurs somewhere in the list (no mutator
ever clears it). -/
theorem foldl_applyOpt_abort (os : List BindOpt) (b : bindOpts) :
    (os.foldl applyOpt b).abort = (b.abort || os.any isWithAbort) := by
  induction os generalizing b with
  | nil => simp
  | cons o t ih =>
    rw [List.foldl_cons, ih]
    cases o <;> simp [applyOpt, isWithAbort, Bool.or_assoc]

/-- C10: `WithResponseCode(c)` sets `response = true` in addition to the
status code, and `WithResponseDetail()` sets `response = true` in
addition to `detail`; hence either mutator alone selects the respond
failure policy without an explicit `WithResponse()`. -/
theorem bind_WithResponseCode_Detail_enable_respond (bo : bindOpts) (c : Nat) :
    (applyOpt bo (BindOpt.withResponseCode c)).response = true
    ∧ (applyOpt bo (BindOpt.withResponseCode c)).code = c
    ∧ (applyOpt bo BindOpt.withResponseDetail).response = true
    ∧ (applyOpt bo BindOpt.withResponseDetail).detail = true
    ∧ failurePolicy (getBindOpts [BindOpt.withResponseCode c])
        = FailPolicy.respond
    ∧ failurePolicy (getBindOpts [BindOpt.withResponseDetail])
        = FailPolicy.respond :=
  ⟨rfl, rfl, rfl, rfl, rfl, rfl⟩

/-- C3 counterexample: with `WithAbort()` followed by `WithResponse()`
the claim predicts the respond policy (a response is written), but the
handler applies the abort policy: it attaches the error via
`ctx.Error`, aborts, and writes no response, because `bindHandler`
tests the abort flag before the response flag and neither mutator
clears the other's flag. -/
theorem bind_abort_then_response_is_abort :
    failurePolicy (getBindOpts [BindOpt.withAbort, BindOpt.withResponse])
      = FailPolicy.abort
    ∧ (bindHandler Nat
        (fun _ => ⟨BindOutcome.fail (GoError.other "bad"), true⟩)
        (getBindOpts [BindOpt.withAbort, BindOpt.withResponse])
        ⟨some ⟨"x".toList, 0, false⟩, [], [], false, none⟩).response = none
    ∧ (bindHandler Nat
        (fun _ => ⟨BindOutcome.fail (GoError.other "bad"), true⟩)
        (getBindOpts [BindOpt.withAbort, BindOpt.withResponse])
        ⟨some ⟨"x".toList, 0, false⟩, [], [], false, none⟩).errors
        = [GoError.other "bad"]
    ∧ (bindHandler Nat
        (fun _ => ⟨BindOutcome.fail (GoError.other "bad"), true⟩)
        (getBindOpts [BindOpt.withAbort, BindOpt.withResponse])
        ⟨some ⟨"x".toList, 0, false⟩, [], [], false, none⟩).aborted = true :=
  ⟨rfl, rfl, rfl, rfl⟩

/-- C3 (amended): later option-mutators override earlier ones for the
field each one sets (the last `WithKey`/`WithResponseCode` wins), but
abort and respond are not mutually exclusive with last-one-wins: the
abort flag is set exactly when a `WithAbort` occurs anywhere, and then
the abort policy is applied regardless of the order of the mutators. -/
theorem bind_opts_precedence (os : List BindOpt) (k : String) (n : Nat) :
    ((getBindOpts os).abort = true ↔ BindOpt.withAbort ∈ os)
    ∧ (BindOpt.withAbort ∈ os →
        failurePolicy (getBindOpts os) = FailPolicy.abort)
    ∧ (getBindOpts (os ++ [BindOpt.withKey k])).key = k
    ∧ (getBindOpts (os ++ [BindOpt.withResponseCode n])).code = n
    ∧ (getBindOpts (os ++ [BindOpt.withResponseCode n])).response = true := by
  have habort : (getBindOpts os).abort = true ↔ BindOpt.withAbort ∈ os := by
    rw [getBindOpts, foldl_applyOpt_abort]
    show (false || os.any isWithAbort) = true ↔ _
    simp only [Bool.false_or, List.any_eq_true]
    constructor
    · intro ⟨o, ho, hw⟩
      rw [← (isWithAbort_eq o).mp hw]
      exact ho
    · intro hm
      exact ⟨BindOpt.withAbort, hm, rfl⟩
  refine ⟨habort, fun hm => ?_, ?_, ?_, ?_⟩
  · rw [failurePolicy, if_pos (habort.mpr hm)]
  · rw [getBindOpts, List.foldl_append]
    rfl
  · rw [getBindOpts, List.foldl_append]
    rfl
  · rw [getBindOpts, List.foldl_append]
    rfl

/-- Witness for C3's amended theorem at a concrete mutator list. -/
theorem bind_opts_precedence_w :
    failurePolicy (getBindOpts [BindOpt.withResponse, BindOpt.withAbort])
      = FailPolicy.abort :=
  (bind_opts_precedence [BindOpt.withResponse, BindOpt.withAbort] "k" 7).2.1
    (by decide)

/-- C6: the prototype-based constructor `To` fails at construction time
(modelled as `Except.error`, for the Go `panic`) exactly when the
prototype's reflected kind is not `Struct`; for a struct prototype it
returns the per-request handler. -/
theorem bind_To_fail_fast (α : Type) (kind : Kind)
    (sb : Option (List Char) → ShouldBindSpec α) (opts : List BindOpt) :
    (To α kind sb opts).isOk = true ↔ kind = Kind.struct := by
  cases kind <;> simp [To, Except.isOk, Except.toBool]

/-- Witness for C6: a struct prototype constructs successfully. -/
theorem bind_To_fail_fast_w :
    (To Nat Kind.struct (fun _ => ⟨BindOutcome.ok 0, false⟩) []).isOk
      = true :=
  (bind_To_fail_fast Nat Kind.struct
    (fun _ => ⟨BindOutcome.ok 0, false⟩) []).mpr rfl

/-- C7: when the request has a (fresh, readable) body and
`ctx.ShouldBind` succeeds, `bindHandler` restores the body so that a
downstream read yields exactly the original bytes, and stores the
populated target under the configured key; the abort flag, response and
error list are untouched. -/
theorem bind_success_restores_and_stores (α : Type)
    (sb : Option (List Char) → ShouldBindSpec α) (opts : bindOpts)
    (c0 : BindCtx α) (data : List Char) (t : α) (rb : Bool)
    (hbody : c0.reqBody = some ⟨data, 0, false⟩)
    (hsb : sb (some data) = ⟨BindOutcome.ok t, rb⟩) :
    (bindHandler α sb opts c0).reqBody.map BodyReader.remaining = some data
    ∧ getKV (bindHandler α sb opts c0).store opts.key = some t
    ∧ (bindHandler α sb opts c0).aborted = c0.aborted
    ∧ (bindHandler α sb opts c0).response = c0.response
    ∧ (bindHandler α sb opts c0).errors = c0.errors := by
  obtain ⟨rb0, st0, er0, ab0, rs0⟩ := c0
  simp only [BindCtx.mk.injEq] at hbody ⊢
  subst hbody
  simp [bindHandler, bindHandlerCore, BodyReader.remaining, hsb]
  cases rb <;> simp [BodyReader.remaining, getKV_setKV]

/-- Witness for C7 at a concrete successful bind. -/
theorem bind_success_restores_and_stores_w :
    (bindHandler Nat (fun _ => ⟨BindOutcome.ok 5, true⟩) defaultBindOpts
        ⟨some ⟨"hello".toList, 0, false⟩, [], [], false, none⟩).reqBody.map
      BodyReader.remaining = some "hello".toList :=
  (bind_success_restores_and_stores Nat (fun _ => ⟨BindOutcome.ok 5, true⟩)
    defaultBindOpts ⟨some ⟨"hello".toList, 0, false⟩, [], [], false, none⟩
    "hello".toList 5 true rfl rfl).1

/-- C8 counterexample: a request with no body whose bind succeeds (for
example a query-parameter bind, as in the repository's own example app)
does store the populated target under the configured key — `ctx.Set`
runs on every successful bind, body or not — contradicting the claim
that nothing is stored. -/
theorem bind_nobody_ok_stores :
    getKV (bindHandler Nat (fun _ => ⟨BindOutcome.ok 7, false⟩)
        defaultBindOpts ⟨none, [], [], false, none⟩).store "body" = some 7
    ∧ some 7 ≠ (none : Option Nat)
    ∧ (bindHandler Nat (fun _ => ⟨BindOutcome.ok 7, false⟩)
        defaultBindOpts ⟨none, [], [], false, none⟩).aborted = false :=
  ⟨rfl, by simp, rfl⟩

/-- C8 (amended): for a request with no body, under the silent (default)
policy the chain proceeds without abort, response or recorded error in
every case; nothing is stored when the bind fails, but when the bind
(of query parameters) succeeds the populated target is stored under the
configured key.  No body restore takes place (there is none). -/
theorem bind_nobody_amended (α : Type)
    (sb : Option (List Char) → ShouldBindSpec α) (opts : bindOpts)
    (c0 : BindCtx α)
    (hb : c0.reqBody = none) (ha : opts.abort = false)
    (hr : opts.response = false) :
    (bindHandler α sb opts c0).aborted = c0.aborted
    ∧ (bindHandler α sb opts c0).response = c0.response
    ∧ (bindHandler α sb opts c0).errors = c0.errors
    ∧ (bindHandler α sb opts c0).reqBody = none
    ∧ (bindHandler α sb opts c0).store
        = (match (sb none).outcome with
           | BindOutcome.ok t => setKV c0.store opts.key t
           | BindOutcome.fail _ => c0.store) := by
  obtain ⟨rb0, st0, er0, ab0, rs0⟩ := c0
  simp only [BindCtx.mk.injEq] at hb ⊢
  subst hb
  rcases hspec : sb none with ⟨o, rds⟩
  cases o <;> cases rds <;>
    simp [bindHandler, bindHandlerCore, hspec, ha, hr]

/-- Witness for C8's amended theorem: no body, failing query bind,
default options — the context passes through unchanged. -/
theorem bind_nobody_amended_w :
    (bindHandler Nat
        (fun _ => ⟨BindOutcome.fail (GoError.validationErrors
          [("Test", "required")]), false⟩)
        defaultBindOpts ⟨none, [], [], false, none⟩).aborted = false :=
  (bind_nobody_amended Nat
    (fun _ => ⟨BindOutcome.fail (GoError.validationErrors
      [("Test", "required")]), false⟩)
    defaultBindOpts ⟨none, [], [], false, none⟩ rfl rfl rfl).1

/-- C2 counterexample: under the silent (default) policy a failing JSON
bind leaves the request body stream consumed — the silent branch of
`bindHandler` returns without re-restoring the buffered body — so a
downstream handler reads no bytes, not the original body. -/
theorem bind_silent_body_not_restored :
    (bindHandler Nat
        (fun _ => ⟨BindOutcome.fail (GoError.other "invalid json"), true⟩)
        defaultBindOpts
        ⟨some ⟨"notjson".toList, 0, false⟩, [], [], false, none⟩).reqBody.map
      BodyReader.remaining = some []
    ∧ ([] : List Char) ≠ "notjson".toList
    ∧ (bindHandler Nat
        (fun _ => ⟨BindOutcome.fail (GoError.other "invalid json"), true⟩)
        defaultBindOpts
        ⟨some ⟨"notjson".toList, 0, false⟩, [], [], false, none⟩).store = []
    ∧ (bindHandler Nat
        (fun _ => ⟨BindOutcome.fail (GoError.other "invalid json"), true⟩)
        defaultBindOpts
        ⟨some ⟨"notjson".toList, 0, false⟩, [], [], false, none⟩).aborted
      = false :=
  ⟨rfl, by decide, rfl, rfl⟩

/-- C2 (amended): under the silent (default) policy a failing bind
stores nothing, aborts nothing, records no error and writes no
response; but the buffered request body is not restored: the stream is
left at the position where the binding engine stopped reading (fully
consumed when the engine read the body). -/
theorem bind_silent_failure_amended (α : Type)
    (sb : Option (List Char) → ShouldBindSpec α) (opts : bindOpts)
    (c0 : BindCtx α) (data : List Char) (e : GoError) (rb : Bool)
    (hbody : c0.reqBody = some ⟨data, 0, false⟩)
    (hsb : sb (some data) = ⟨BindOutcome.fail e, rb⟩)
    (ha : opts.abort = false) (hr : opts.response = false) :
    (bindHandler α sb opts c0).store = c0.store
    ∧ (bindHandler α sb opts c0).errors = c0.errors
    ∧ (bindHandler α sb opts c0).aborted = c0.aborted
    ∧ (bindHandler α sb opts c0).response = c0.response
    ∧ (bindHandler α sb opts c0).reqBody
        = some ⟨data, if rb then data.length else 0, false⟩ := by
  obtain ⟨rb0, st0, er0, ab0, rs0⟩ := c0
  simp only [BindCtx.mk.injEq] at hbody ⊢
  subst hbody
  simp [bindHandler, bindHandlerCore, BodyReader.remaining, hsb]
  cases rb <;> simp [ha, hr]

/-- Witness for C2's amended theorem at a concrete consumed body. -/
theorem bind_silent_failure_amended_w :
    (bindHandler Nat
        (fun _ => ⟨BindOutcome.fail (GoError.other "bad"), true⟩)
        defaultBindOpts
        ⟨some ⟨"ab".toList, 0, false⟩, [], [], false, none⟩).reqBody
      = some ⟨"ab".toList, if true then "ab".toList.length else 0, false⟩ :=
  (bind_silent_failure_amended Nat
    (fun _ => ⟨BindOutcome.fail (GoError.other "bad"), true⟩)
    defaultBindOpts ⟨some ⟨"ab".toList, 0, false⟩, [], [], false, none⟩
    "ab".toList (GoError.other "bad") true rfl rfl rfl rfl).2.2.2.2

/-- C1 evaluation at the failing input: respond policy with detail
enabled and a non-validation decode failure (malformed JSON, decoder
error "unexpected EOF").  The handler aborts via
`ctx.AbortWithStatus(400)`: the response carries the configured status
and no body at all, where the claim (and the repository's own test
`TestBindResponseDetailNotValidation`) require the JSON body with the
`binding_error` code and the decoder error text. -/
theorem bind_respond_detail_nonvalidation_empty_body :
    (bindHandler Nat
        (fun _ => ⟨BindOutcome.fail (GoError.other "unexpected EOF"), true⟩)
        (getBindOpts [BindOpt.withResponseDetail])
        ⟨some ⟨"truncated json".toList, 0, false⟩, [], [], false, none⟩).aborted
      = true
    ∧ (bindHandler Nat
        (fun _ => ⟨BindOutcome.fail (GoError.other "unexpected EOF"), true⟩)
        (getBindOpts [BindOpt.withResponseDetail])
        ⟨some ⟨"truncated json".toList, 0, false⟩, [], [], false, none⟩).response.map
      Response.body = some none :=
  ⟨rfl, rfl⟩

/-!
Package `zlog` (src/zlog/zlog.go).

Zerolog levels are modelled as integers with zerolog's numbering
(Trace = -1, Debug = 0, Info = 1, Warn = 2, ...).  A zerolog logger is
its attached context fields plus its minimum severity; an event built
with `WithLevel(l)` is emitted exactly when `l` is at or above the
logger's minimum severity (zerolog's own global level is taken as
Trace, which the package doc asks for).  The cryptographically random
request identifier and the wall-clock duration are inputs the model
cannot generate; the identifier is a parameter and the duration is
omitted from the response record.
-/

/-- A zerolog logger: attached context fields plus minimum severity. -/
structure Zerolog where
  fields : List (String × String)
  level : Int
deriving Repr, DecidableEq

/-- Embedding of `log.With().Str(k, v).Logger()`: append a field. -/
def Zerolog.withStr (lg : Zerolog) (k v : String) : Zerolog :=
  { lg with fields := lg.fields ++ [(k, v)] }

/-- Embedding of zerolog's `Logger.Level`: copy with a new minimum
severity, all context fields preserved. -/
def Zerolog.Level (lg : Zerolog) (l : Int) : Zerolog :=
  { lg with level := l }

/-- One emitted log record. -/
structure LogRecord where
  level : Int
  fields : List (String × String)
  msg : String
deriving Repr, DecidableEq

/-- Embedding of `logger.WithLevel(l). ... .Msg(msg)`: the event is
emitted (with the logger's context fields plus the per-event fields)
exactly when `l` is at or above the logger's minimum severity. -/
def Zerolog.withLevelMsg (lg : Zerolog) (l : Int)
    (extras : List (String × String)) (msg : String) : Option LogRecord :=
  if lg.level ≤ l then some ⟨l, lg.fields ++ extras, msg⟩ else none

/-- The process-wide default logger `log.Logger` (fresh zerolog logger
at Trace level, no request fields). -/
def defaultLogger : Zerolog := ⟨[], -1⟩

/-- Request data the logging middleware reads. -/
structure ReqMeta where
  method : String
  path : String
  origin : String
  ip : String
deriving Repr, DecidableEq

/-- The part of a gin context that package `zlog` touches: the logger
stored in the request context (under `loggerKey`), the response
headers, the sink of emitted records, the abort flag and the response
status/size the middleware reads back. -/
structure LogCtx where
  storedLogger : Option Zerolog
  header : List (String × String)
  records : List LogRecord
  aborted : Bool
  status : Nat
  size : Nat
deriving Repr, DecidableEq

/-- Embedding of `zlog.GetLogger`: the logger stored in the request
context, or the process-wide default logger when none is stored. -/
def GetLogger (c : LogCtx) : Zerolog :=
  match c.storedLogger with
  | some lg => lg
  | none => defaultLogger

/-- Embedding of the private `setLogger`: store the logger in the
request context. -/
def setLogger (c : LogCtx) (lg : Zerolog) : LogCtx :=
  { c with storedLogger := some lg }

/-- Append an (optionally suppressed) record to the sink. -/
def emit (c : LogCtx) (r : Option LogRecord) : LogCtx :=
  { c with records := c.records ++ r.toList }

/-- Per-event fields of the request-start record. -/
def reqEventFields (m : ReqMeta) : List (String × String) :=
  [("method", m.method), ("origin", m.origin), ("path", m.path),
   ("ip", m.ip)]

/-- Message of the request-start record. -/
def reqMsg (m : ReqMeta) : String :=
  "REQ " ++ m.method ++ " " ++ m.path ++ " " ++ m.ip

/-- Per-event fields of the response record (duration omitted: wall
clock time is outside the model). -/
def resEventFields (m : ReqMeta) (status size : Nat) :
    List (String × String) :=
  [("method", m.method), ("request", m.path), ("ip", m.ip),
   ("response", toString status), ("bytes", toString size)]

/-- Message of the response record. -/
def resMsg (m : ReqMeta) (status : Nat) : String :=
  "RES " ++ m.method ++ " " ++ m.path ++ " " ++ toString status
    ++ " " ++ m.ip

/-- Embedding of the `zlog.Logger` middleware (src/zlog/zlog.go lines
30-69).  `lvl` is the argument of `Logger`; `glReq`/`glRes` are the
package vars `globalRequestLevel`/`globalResponseLevel`; `requestID`
stands for the randomly generated identifier; `chain` is `c.Next()`,
the remaining handler chain. -/
def Logger (lvl glReq glRes : Int) (requestID : String) (m : ReqMeta)
    (chain : LogCtx → LogCtx) (c0 : LogCtx) : LogCtx :=
  -- c.Header("X-Request-ID", requestID)
  let c1 := { c0 with header := c0.header ++ [("X-Request-ID", requestID)] }
  -- logger := log.With().Str("id", requestID).Logger().Level(lvl)
  let logger := (defaultLogger.withStr "id" requestID).Level lvl
  let c2 := setLogger c1 logger
  -- request-start record at the process-wide request level
  let c3 := emit c2 (logger.withLevelMsg glReq (reqEventFields m) (reqMsg m))
  -- c.Next()
  let c4 := chain c3
  -- response record, via GetLogger(c), at the process-wide response level
  emit c4 ((GetLogger c4).withLevelMsg glRes
    (resEventFields m c4.status c4.size) (resMsg m c4.status))

/-- Embedding of the `zlog.SetLevel` middleware (src/zlog/zlog.go lines
84-89): replace the stored logger by a copy of itself at the new
minimum severity. -/
def SetLevel (lvl : Int) (c : LogCtx) : LogCtx :=
  setLogger c ((GetLogger c).Level lvl)

/-- The context handed to `c.Next()` by the logging middleware: header
written, logger stored, request-start record (possibly suppressed)
emitted. -/
def loggerMidCtx (lvl glReq : Int) (rid : String) (m : ReqMeta)
    (c0 : LogCtx) : LogCtx :=
  emit (setLogger { c0 with header := c0.header ++ [("X-Request-ID", rid)] }
      ((defaultLogger.withStr "id" rid).Level lvl))
    (((defaultLogger.withStr "id" rid).Level lvl).withLevelMsg glReq
      (reqEventFields m) (reqMsg m))

/-- Record sink of a full middleware run, for any downstream chain that
emits nothing itself and leaves the stored logger alone: the original
records, then the (level-filtered) request record, then the
(level-filtered) response record. -/
theorem Logger_records (lvl glReq glRes : Int) (rid : String) (m : ReqMeta)
    (chain : LogCtx → LogCtx) (c0 : LogCtx)
    (hrec : ∀ c, (chain c).records = c.records)
    (hlog : ∀ c, (chain c).storedLogger = c.storedLogger) :
    (Logger lvl glReq glRes rid m chain c0).records
      = c0.records
        ++ (((defaultLogger.withStr "id" rid).Level lvl).withLevelMsg glReq
              (reqEventFields m) (reqMsg m)).toList
        ++ (((defaultLogger.withStr "id" rid).Level lvl).withLevelMsg glRes
              (resEventFields m (chain (loggerMidCtx lvl glReq rid m c0)).status
                (chain (loggerMidCtx lvl glReq rid m c0)).size)
              (resMsg m (chain (loggerMidCtx lvl glReq rid m c0)).status)).toList
      := by
  simp only [Logger, loggerMidCtx, emit, setLogger, GetLogger, hrec, hlog,
    List.append_assoc]

/-- C5 counterexample, taken from the repository's own example app:
`Logger(zerolog.InfoLevel)` with the request level left at Trace and
the response level at Info emits only the response record — the
request-start record is filtered out by the logger's minimum severity,
so a completed request produces one record, not two. -/
theorem zlog_Logger_single_record :
    (Logger 1 (-1) 1 "rid1" ⟨"GET", "/", "", ""⟩ (fun c => c)
        ⟨none, [], [], false, 200, 0⟩).records.length = 1
    ∧ (1 : Nat) ≠ 2 :=
  ⟨rfl, by decide⟩

/-- C5 (amended): the logging middleware always makes exactly two
emission attempts per completed request (request-start before
delegating, response after), but a record is actually written only when
its process-wide level passes the stored logger's minimum severity.
When both levels pass — and whatever the downstream handler does to
the abort flag or status, provided it emits nothing itself and leaves
the stored logger alone — exactly two records are appended, both
carrying the same request identifier field. -/
theorem zlog_Logger_two_records (lvl glReq glRes : Int) (rid : String)
    (m : ReqMeta) (chain : LogCtx → LogCtx) (c0 : LogCtx)
    (hrec : ∀ c, (chain c).records = c.records)
    (hlog : ∀ c, (chain c).storedLogger = c.storedLogger)
    (hq : lvl ≤ glReq) (hs : lvl ≤ glRes) :
    ∃ r1 r2 : LogRecord,
      (Logger lvl glReq glRes rid m chain c0).records
        = c0.records ++ [r1, r2]
      ∧ ("id", rid) ∈ r1.fields ∧ ("id", rid) ∈ r2.fields := by
  rw [Logger_records lvl glReq glRes rid m chain c0 hrec hlog]
  rw [Zerolog.withLevelMsg, if_pos (show ((defaultLogger.withStr "id"
    rid).Level lvl).level ≤ glReq from hq)]
  rw [Zerolog.withLevelMsg, if_pos (show ((defaultLogger.withStr "id"
    rid).Level lvl).level ≤ glRes from hs)]
  refine ⟨⟨glReq, ((defaultLogger.withStr "id" rid).Level lvl).fields
      ++ reqEventFields m, reqMsg m⟩,
    ⟨glRes, ((defaultLogger.withStr "id" rid).Level lvl).fields
      ++ resEventFields m (chain (loggerMidCtx lvl glReq rid m c0)).status
        (chain (loggerMidCtx lvl glReq rid m c0)).size,
      resMsg m (chain (loggerMidCtx lvl glReq rid m c0)).status⟩,
    ?_, ?_, ?_⟩
  · simp
  · simp [defaultLogger, Zerolog.withStr, Zerolog.Level]
  · simp [defaultLogger, Zerolog.withStr, Zerolog.Level]

/-- Witness for C5's amended theorem: a downstream handler that aborts
the chain, levels all passing — two records with the shared id. -/
theorem zlog_Logger_two_records_w :
    ∃ r1 r2 : LogRecord,
      (Logger (-1) (-1) 0 "w1" ⟨"GET", "/", "", ""⟩
          (fun c => { c with aborted := true })
          ⟨none, [], [], false, 404, 0⟩).records
        = ([] : List LogRecord) ++ [r1, r2]
      ∧ ("id", "w1") ∈ r1.fields ∧ ("id", "w1") ∈ r2.fields :=
  zlog_Logger_two_records (-1) (-1) 0 "w1" ⟨"GET", "/", "", ""⟩
    (fun c => { c with aborted := true }) ⟨none, [], [], false, 404, 0⟩
    (fun _ => rfl) (fun _ => rfl) (by decide) (by decide)

/-- C9: the level-override middleware replaces the stored logger by one
differing only in minimum severity (the id field and all other context
fields are kept, and no record is emitted by the override itself), and
in a chain containing the override the request-start record is still
the one computed from the original logger at the `Logger` argument's
level — only the response record, emitted after the override, is
filtered by (and stamped with) the overridden level. -/
theorem zlog_SetLevel_override (lvl l2 glReq glRes : Int) (rid : String)
    (m : ReqMeta) (c0 : LogCtx) (c : LogCtx) :
    (GetLogger (SetLevel l2 c)).fields = (GetLogger c).fields
    ∧ (GetLogger (SetLevel l2 c)).level = l2
    ∧ (SetLevel l2 c).records = c.records
    ∧ (Logger lvl glReq glRes rid m (SetLevel l2) c0).records
        = c0.records
          ++ (((defaultLogger.withStr "id" rid).Level lvl).withLevelMsg glReq
                (reqEventFields m) (reqMsg m)).toList
          ++ (((defaultLogger.withStr "id" rid).Level l2).withLevelMsg glRes
                (resEventFields m c0.status c0.size)
                (resMsg m c0.status)).toList :=
  ⟨rfl, rfl, rfl, rfl⟩
